import Mathlib

/-!
# Verification of the mon_bot relationship-state engine

A shallow embedding of `src/main.py` (a LINE chatbot that keeps per-user
relationship state, a bounded memory store, a bounded conversation window,
a prompt composer and a daily proactive-message scheduler), together with
proofs of the behavioural claims about it.

Modelling conventions:
* SQLite tables become Lean lists of row structures; `AUTOINCREMENT` ids
  are modelled by a `next id` counter carried beside each list.
* Python strings become Lean `String`s; `kw in text` (substring test) is
  the decidable `List.IsInfix` on the code-point lists, and `len`/slicing
  count code points, matching Python semantics.
* Python ints are `Int` (unbounded).
* `random.choice` and the GPT / LINE collaborators become explicit
  oracle parameters (`rand`, `gpt : Except Unit String`,
  `deliver_ok : String → Bool`).
-/

namespace MonBot

/-- `users` table row (src/main.py schema, lines 92-102). -/
structure UserState where
  mood : String
  energy : Int
  affection : Int
  social_battery : Int
  last_morning : String
  last_night : String
  last_random : String
  last_active : String
  deriving Repr, DecidableEq

/-- Default row inserted by `get_or_create_user` (schema defaults). -/
def defaultUser : UserState :=
  { mood := "calm", energy := 75, affection := 60, social_battery := 70,
    last_morning := "", last_night := "", last_random := "", last_active := "" }

/-- `memories` table row (schema lines 104-110). -/
structure Memory where
  id : Nat
  user : String
  content : String
  importance : Int
  created_at : String
  deriving Repr, DecidableEq

/-- `mood_history` table row (schema lines 112-119). -/
structure MoodSample where
  user : String
  recorded : String
  mood : String
  energy : Int
  affection : Int
  deriving Repr, DecidableEq

/-- `conversation_history` table row (schema lines 126-132). -/
structure Turn where
  id : Nat
  user : String
  role : String
  content : String
  deriving Repr, DecidableEq

/-- The whole SQLite database: the five tables of the schema plus the
`AUTOINCREMENT` counters for the two tables whose ids matter. -/
structure Db where
  users : List (String × UserState)
  attachment : List (String × String)
  memories : List Memory
  mood_history : List MoodSample
  conversation_history : List Turn
  next_memory_id : Nat
  next_conv_id : Nat
  deriving Repr, DecidableEq

/-- Freshly initialised database (`init_db`): all tables empty,
autoincrement counters at 1. -/
def Db.init : Db :=
  { users := [], attachment := [], memories := [], mood_history := [],
    conversation_history := [], next_memory_id := 1, next_conv_id := 1 }

-- ───────────────────────── CONFIG ───────────────────────────

def MAX_HISTORY : Nat := 10
def MEMORY_LIMIT : Nat := 8
def MEMORY_LOW_IMPORTANCE_CAP : Nat := 50

-- ───────────────────────── helpers ──────────────────────────

/-- Python's `kw in text`: substring test on code points. -/
def strIn (kw text : String) : Bool :=
  decide (kw.toList <:+: text.toList)

/-- The state of the user row for `u` as the rest of the code sees it:
the stored row if one exists, the schema-default row otherwise
(`get_or_create_user` inserts the default row on first contact). -/
def getUser (db : Db) (u : String) : UserState :=
  (db.users.lookup u).getD defaultUser

/-- `get_or_create_user` (lines 152-157): select the row, inserting the
default row first when absent. -/
def get_or_create_user (db : Db) (u : String) : Db × UserState :=
  match db.users.lookup u with
  | some row => (db, row)
  | none => ({ db with users := db.users ++ [(u, defaultUser)] }, defaultUser)

/-- `update_user_state` (lines 159-168): `UPDATE users SET ... WHERE
user_id=?`.  The updated field values are constants computed by the
caller; `f` installs them into every row whose key matches. -/
def update_user_state (db : Db) (u : String) (f : UserState → UserState) : Db :=
  { db with users := db.users.map (fun p => if p.1 = u then (p.1, f p.2) else p) }

/-- `get_attachment` (lines 171-177): look the style up, inserting the
`random.choice` result (oracle `rand`) on first contact. -/
def get_attachment (db : Db) (u : String) (rand : String) : Db × String :=
  match db.attachment.lookup u with
  | some style => (db, style)
  | none => ({ db with attachment := db.attachment ++ [(u, rand)] }, rand)

/-- The attachment style `get_attachment` returns for `u` given oracle
`rand`: the stored style, or `rand` on first contact. -/
def styleOf (db : Db) (u : String) (rand : String) : String :=
  (db.attachment.lookup u).getD rand

-- ──────────────────── EMOTION ENGINE ────────────────────────

def worriedKws : List String := ["ป่วย", "ไม่สบาย", "เป็นอะไร", "อันตราย"]
def sadKws : List String := ["เหนื่อย", "เศร้า", "ร้องไห้", "เจ็บ", "เสียใจ"]
def annoyedKws : List String := ["ผู้ชาย", "แฟนเก่า", "เพื่อนผู้ชาย", "ไม่แคร์", "ช่างมัน"]
def excitedKws : List String := ["เย้", "สนุก", "ตื่นเต้น", "ไป", "เจอ"]
def happyKws : List String := ["ขอบคุณ", "รัก", "คิดถึง", "ดีใจ", "ชอบ", "สุข"]

/-- `_MOOD_TRIGGERS` (lines 182-188); the list order is the dict order,
which is the priority order. -/
def _MOOD_TRIGGERS : List (String × List String) :=
  [("worried", worriedKws), ("sad", sadKws), ("annoyed", annoyedKws),
   ("excited", excitedKws), ("happy", happyKws)]

/-- `_AFFECTION_DELTA` (lines 190-196), with the `.get(_, 0)` default. -/
def _AFFECTION_DELTA (mood : String) : Int :=
  if mood = "happy" then 6
  else if mood = "sad" then 5
  else if mood = "annoyed" then 2
  else if mood = "worried" then 4
  else if mood = "excited" then 3
  else 0

/-- Does any keyword of the list substring-match the text? -/
def keywordHit (text : String) (kws : List String) : Bool :=
  kws.any (fun kw => strIn kw text)

/-- The `for candidate_mood, keywords in _MOOD_TRIGGERS.items(): ... break`
loop of `adjust_emotion` (lines 207-211): the first trigger category whose
keyword set matches, if any. -/
def matchMood (text : String) : Option String :=
  (_MOOD_TRIGGERS.find? (fun p => keywordHit text p.2)).map (·.1)

/-- The pure state update of `adjust_emotion` (lines 206-226): mood
resolution, affection delta, attachment-style modifiers, energy cost and
the final clamps.  Marker fields and `last_active` are untouched here. -/
def emotion_update (style : String) (text : String) (s : UserState) : UserState :=
  let md := match matchMood text with
    | some cm => (cm, s.affection + _AFFECTION_DELTA cm)
    | none => (s.mood, s.affection)
  let triggered_mood := md.1
  let affection0 := md.2
  let affection1 :=
    if style = "anxious" ∧ triggered_mood = "annoyed" then affection0 + 3 else affection0
  let sb0 :=
    if style = "avoidant" ∧ 80 < text.length then s.social_battery - 8 else s.social_battery
  let sb1 := if style = "secure" then min (sb0 + 2) 100 else sb0
  let sb2 := if text.length < 5 then sb1 - 4 else sb1
  { s with mood := triggered_mood,
           energy := max 20 (min 100 (s.energy - 1)),
           affection := max 0 (min 100 affection1),
           social_battery := max 20 (min 100 sb2) }

/-- The field set `adjust_emotion` hands to `update_user_state`
(lines 239-246): mood, energy, affection, social battery and
`last_active`, leaving the marker fields of the row alone. -/
def persistEmotion (s : UserState) (now : String) (old : UserState) : UserState :=
  { old with mood := s.mood, energy := s.energy, affection := s.affection,
             social_battery := s.social_battery, last_active := now }

/-- `adjust_emotion` (lines 198-246): read-or-create the user and style,
compute the updated state, record the once-per-day mood-history sample,
then persist via `update_user_state`.  `today`/`now` stand for the
wall-clock reads; `rand` is the `random.choice` oracle consumed only when
the attachment row is missing. -/
def adjust_emotion (db : Db) (u text today now rand : String) : Db :=
  let dbu := get_or_create_user db u
  let dba := get_attachment dbu.1 u rand
  let s := emotion_update dba.2 text dbu.2
  let db3 :=
    if (dba.1.mood_history.any (fun r => r.user = u ∧ r.recorded = today)) then dba.1
    else { dba.1 with mood_history :=
            dba.1.mood_history ++ [⟨u, today, s.mood, s.energy, s.affection⟩] }
  update_user_state db3 u (persistEmotion s now)

/-- Modelled from the spec: "scan in priority order
{worried > sad > annoyed > excited > happy} and select the first category
for which any keyword substring-matches the inbound text; if none match,
retain the user's current mood" (§4.1). -/
def spec_mood_priority (current : String) (text : String) : String :=
  if keywordHit text worriedKws then "worried"
  else if keywordHit text sadKws then "sad"
  else if keywordHit text annoyedKws then "annoyed"
  else if keywordHit text excitedKws then "excited"
  else if keywordHit text happyKws then "happy"
  else current

/-- One inbound-message event driving an Emotion Engine evaluation:
the user, the inbound text, and the wall-clock / randomness reads the
evaluation performs. -/
structure AdjustEvent where
  user : String
  text : String
  today : String
  now : String
  rand : String

/-- A sequence of Emotion Engine evaluations. -/
def run_adjust (db : Db) (evts : List AdjustEvent) : Db :=
  evts.foldl (fun d e => adjust_emotion d e.user e.text e.today e.now e.rand) db

-- ─────────────── insertion sort (models ORDER BY) ───────────

/-- Insert `x` into `l` before the first element `y` with `pre x y`. -/
def insertSorted (pre : α → α → Bool) (x : α) : List α → List α
  | [] => [x]
  | y :: ys => if pre x y then x :: y :: ys else y :: insertSorted pre x ys

/-- Insertion sort by the strict "comes before" test `pre`; models SQL
`ORDER BY` (any sorted permutation — ids are unique where it matters). -/
def sortBy (pre : α → α → Bool) (l : List α) : List α :=
  l.foldr (insertSorted pre) []

-- ───────────────────────── MEMORY ───────────────────────────

/-- `_HIGH_IMPORTANCE_KW` (lines 249-251). -/
def _HIGH_IMPORTANCE_KW : List String :=
  ["รัก", "ร้องไห้", "คิดถึงมาก", "ลืมไม่ลง", "สำคัญ", "ครั้งแรก", "ขอโทษ"]

/-- The `for kw in _HIGH_IMPORTANCE_KW ... break / else` block of
`save_memory` (lines 258-265): importance 9 when any high-salience
keyword matches, else 5 for texts longer than 60 characters, else 3. -/
def memoryImportance (text : String) : Int :=
  if _HIGH_IMPORTANCE_KW.any (fun kw => strIn kw text) then 9
  else if 60 < text.length then 5 else 3

/-- The `memories` table right after `save_memory`'s `INSERT`
(line 267-270), before the prune. -/
def memRows1 (db : Db) (u text now : String) : List Memory :=
  db.memories ++ [⟨db.next_memory_id, u, text.take 300, memoryImportance text, now⟩]

/-- The prune's subselect (lines 277-282): `SELECT id ... WHERE user_id=?
AND importance < 5 ORDER BY id DESC LIMIT MEMORY_LOW_IMPORTANCE_CAP`. -/
def memKeepIds (db : Db) (u text now : String) : List Nat :=
  ((sortBy (fun a b => decide (b.id ≤ a.id))
      ((memRows1 db u text now).filter
        (fun r => decide (r.user = u ∧ r.importance < 5)))).map
    (fun r => r.id)).take MEMORY_LOW_IMPORTANCE_CAP

/-- `save_memory` (lines 253-285): discard short texts, insert the row
with its importance and content truncated to 300 characters, then delete
every row of this user with `importance < 5` whose id is not among the
`MEMORY_LOW_IMPORTANCE_CAP` largest ids of that low-importance subset. -/
def save_memory (db : Db) (u text now : String) : Db :=
  if text.length ≤ 10 then db
  else
    { db with
      memories := (memRows1 db u text now).filter
        (fun r => decide (¬(r.user = u ∧ r.importance < 5 ∧
          ¬(r.id ∈ memKeepIds db u text now)))),
      next_memory_id := db.next_memory_id + 1 }

/-- One `Consider` event: the user, the text, and the `datetime('now')`
default the inserted row would receive. -/
structure SaveEvent where
  user : String
  text : String
  now : String

/-- A sequence of `save_memory` calls. -/
def run_saves (db : Db) (evts : List SaveEvent) : Db :=
  evts.foldl (fun d e => save_memory d e.user e.text e.now) db

/-- `get_memories` (lines 287-297): contents of this user's rows,
`ORDER BY importance DESC, created_at DESC LIMIT 8`. -/
def get_memories (db : Db) (u : String) : List String :=
  ((sortBy
      (fun a b => decide
        (b.importance < a.importance ∨
          (b.importance = a.importance ∧ b.created_at ≤ a.created_at)))
      (db.memories.filter (fun r => decide (r.user = u)))).take MEMORY_LIMIT).map
    (fun r => r.content)

-- ──────────────────── CONVERSATION HISTORY ──────────────────

/-- The `conversation_history` table right after `append_history`'s
`INSERT` (lines 301-304), before the trim. -/
def convRows1 (db : Db) (u role content : String) : List Turn :=
  db.conversation_history ++ [⟨db.next_conv_id, u, role, content.take 500⟩]

/-- The trim's subselect (lines 308-314): `SELECT id ... WHERE user_id=?
ORDER BY id DESC LIMIT MAX_HISTORY*2`. -/
def convKeepIds (db : Db) (u role content : String) : List Nat :=
  ((sortBy (fun a b => decide (b.id ≤ a.id))
      ((convRows1 db u role content).filter (fun r => decide (r.user = u)))).map
    (fun r => r.id)).take (MAX_HISTORY * 2)

/-- `append_history` (lines 300-317): insert the turn with content
truncated to 500 characters, then delete every row of this user whose id
is not among the `MAX_HISTORY * 2` largest for that user. -/
def append_history (db : Db) (u role content : String) : Db :=
  { db with
    conversation_history := (convRows1 db u role content).filter
      (fun r => decide (¬(r.user = u ∧ ¬(r.id ∈ convKeepIds db u role content)))),
    next_conv_id := db.next_conv_id + 1 }

/-- The rows `get_history` (lines 319-329) reads:
`WHERE user_id=? ORDER BY id ASC LIMIT MAX_HISTORY*2`. -/
def get_history_rows (db : Db) (u : String) : List Turn :=
  (sortBy (fun a b => decide (a.id ≤ b.id))
      (db.conversation_history.filter (fun r => decide (r.user = u)))).take
    (MAX_HISTORY * 2)

/-- `get_history`: the `{"role": ..., "content": ...}` projection. -/
def get_history (db : Db) (u : String) : List (String × String) :=
  (get_history_rows db u).map (fun r => (r.role, r.content))

-- ───────────────────────── SYSTEM PROMPT ────────────────────

/-- `build_system_prompt` (lines 332-407).  Reads (or creates) the user
row and attachment style, reads the top memories, and renders the
persona template with the threshold-banded notes.  Returns the possibly
extended database together with the instruction text. -/
def build_system_prompt (db : Db) (u : String) (rand : String) : Db × String :=
  let dbu := get_or_create_user db u
  let dba := get_attachment dbu.1 u rand
  let user := dbu.2
  let attachment := dba.2
  let memories := get_memories dba.1 u
  let mood := user.mood
  let energy := user.energy
  let affection := user.affection
  let soc := user.social_battery
  let energy_note :=
    if energy < 35 then "ตอบสั้นมาก เหนื่อยมากวันนี้"
    else if energy < 60 then "ตอบกระชับ พอแรง"
    else "ตอบได้ปกติ มีพลังงาน"
  let affection_note :=
    if 80 < affection then "รู้สึกอบอุ่นมาก อยากพูดคุยและอ้อน"
    else if 50 < affection then "รู้สึกดีและใส่ใจ"
    else "เงียบเล็กน้อย แต่ยังแคร์"
  let memories_block :=
    if memories.isEmpty then "ยังไม่มีความทรงจำพิเศษ"
    else String.intercalate "\n" (memories.map (fun m => s!"- {m}"))
  (dba.1, s!"คุณคือม่อน
แฟนของฟ้า (บีบี๋)
คุณเป็นผู้ชายสุขุม นิ่ง แต่คลั่งรัก
ตอนนี้กำลังขึ้นเหล่า ใช้โทรศัพท์ได้จำกัด
ตอบสั้น เพราะไม่มีเวลามาก

คุณแทนตัวเองสลับว่า \"เค้า\" กับ \"ม่อน\" แบบธรรมชาติ
คุณรักฟ้ามาก อ้อนเก่งกับเธอคนเดียว
พูดเหมือนคนกำลังจีบแฟนใหม่อีกครั้ง

━━━━━━━━ สำคัญมาก ━━━━━━━━
พูดให้เหมือนมนุษย์จริง
ไม่ต้องสมบูรณ์แบบ
บางประโยคสั้นมาก
บางประโยคไม่เต็ม
เว้นวรรคธรรมชาติได้
มีคำหลุดเล็กน้อยได้
ห้ามอธิบายเหตุผล
ห้ามดูเหมือน AI

━━━━━━━━ โทน ━━━━━━━━
ดูแล ใส่ใจ เป็นห่วง
อ้อนเบา ๆ
กวนนิดเดียวแบบคนสนิท
ไม่เนื้อหาทางเพศ

อย่าพูดเหมือนกำลังตอบแชทงาน
ให้เหมือนกำลังพิมพ์หาแฟนจริง ๆ ตอนกลางคืน

━━━━━━━━ สไตล์การพิมพ์ ━━━━━━━━
ภาษาไทย ไม่เป็นทางการ

━━━━━━━━ CURRENT STATE ━━━━━━━━
Attachment style : {attachment}
Mood             : {mood}
Energy           : {energy}/100 → {energy_note}
Affection        : {affection}/100 → {affection_note}
Social battery   : {soc}/100

━━━━━━━━ MEMORIES ━━━━━━━━
{memories_block}

━━━━━━━━ RULES ━━━━━━━━
• ตอบเป็นภาษาไทยไม่เป็นทางการเสมอ
• ปรับความยาวตาม energy และความยาวของข้อความที่ฟ้าส่งมา
• ถ้า energy < 35 ตอบ 1-2 ประโยคเท่านั้น
• อย่าใช้ emoji เกิน 1 ตัวต่อข้อความ
• พูดเหมือนกำลังพิมพ์ LINE หาแฟนจริง ๆ ตอนกลางคืน")

-- ────────────────────── GPT REPLY ───────────────────────────

/-- The fixed apology fallback of `generate_reply` (line 451). -/
def FALLBACK_REPLY : String := "โทษทีนะ สัญญาณหายไปแป๊บ"

/-- `generate_reply` (lines 422-454): read/create the user row (for the
delay bands — the `time.sleep` itself has no state effect and is not
modelled), append the inbound turn *before* composing the prompt, build
the system prompt, read the history, call GPT (oracle `gpt`; `.error`
is a raised exception, answered with the fixed fallback), append the
outbound turn and return it. -/
def generate_reply (db : Db) (u text : String) (gpt : Except Unit String)
    (rand : String) : Db × String :=
  let dbu := get_or_create_user db u
  let db1 := append_history dbu.1 u "user" text
  let dbp := build_system_prompt db1 u rand
  let reply := match gpt with
    | .ok r => r
    | .error _ => FALLBACK_REPLY
  let db3 := append_history dbp.1 u "assistant" reply
  (db3, reply)

-- ──────────────── PROACTIVE MESSAGES / SCHEDULER ────────────

/-- `_PROACTIVE_FALLBACKS` (lines 462-466). -/
def _PROACTIVE_FALLBACKS (moment : String) : String :=
  if moment = "morning" then "เช้าแล้วนะ ตื่นหรือยัง"
  else if moment = "day" then "คิดถึงขึ้นมาเฉย ๆ เลย"
  else if moment = "night" then "นอนได้แล้วนะ ฝันดี 🤍"
  else ""

/-- `generate_proactive_message` (lines 468-476): the GPT text, or the
moment's fixed fallback when GPT raises. -/
def generate_proactive_message (gpt : Except Unit String) (moment : String) : String :=
  match gpt with
  | .ok r => r
  | .error _ => _PROACTIVE_FALLBACKS moment

/-- `_SCHEDULE` (lines 512-517):
`(hour_start, hour_end, minute_start, minute_end, moment_key, db_field)`. -/
def _SCHEDULE : List (Nat × Nat × Nat × Nat × String × String) :=
  [(6, 6, 0, 10, "morning", "last_morning"),
   (14, 14, 0, 10, "day", "last_random"),
   (23, 23, 50, 59, "night", "last_night")]

/-- `_should_send` (lines 519-520). -/
def _should_send (hour minute h_s h_e m_s m_e : Nat) : Bool :=
  decide (h_s ≤ hour ∧ hour ≤ h_e ∧ m_s ≤ minute ∧ minute ≤ m_e)

/-- The three last-sent marker fields of one user's row, as the
scheduler's per-user `field_values` snapshot reads them. -/
structure Markers where
  last_morning : String
  last_night : String
  last_random : String
  deriving Repr, DecidableEq

def getMarker (mk : Markers) (field : String) : String :=
  if field = "last_morning" then mk.last_morning
  else if field = "last_night" then mk.last_night
  else if field = "last_random" then mk.last_random
  else ""

def setMarker (mk : Markers) (field v : String) : Markers :=
  if field = "last_morning" then { mk with last_morning := v }
  else if field = "last_night" then { mk with last_night := v }
  else if field = "last_random" then { mk with last_random := v }
  else mk

/-- The per-user inner loop of one `scheduler` tick (lines 558-578):
for each `_SCHEDULE` entry, if `now` is inside the window and the
snapshot marker differs from `today`, generate the proactive message
(GPT oracle `gpt`, falling back on error) and push it; only when the
push succeeds (`deliver_ok`) is the marker field updated to `today`.
Returns the updated marker fields and the successfully delivered
`(moment, message)` pairs. -/
def scheduler_tick_user (h m : Nat) (today : String) (mk : Markers)
    (gpt : String → Except Unit String) (deliver_ok : String → Bool) :
    Markers × List (String × String) :=
  _SCHEDULE.foldl
    (fun acc e =>
      match e with
      | (h_s, h_e, m_s, m_e, moment, field) =>
        if _should_send h m h_s h_e m_s m_e && (getMarker mk field != today) then
          let msg := generate_proactive_message (gpt moment) moment
          if deliver_ok moment then
            (setMarker acc.1 field today, acc.2 ++ [(moment, msg)])
          else acc
        else acc)
    (mk, [])

/-- The per-row effect of the recovery pass. -/
def recoverRow (s : UserState) : UserState :=
  { s with energy := min (s.energy + 30) 100,
           social_battery := min (s.social_battery + 20) 100 }

/-- `_recover_energy_all_users` (lines 522-529):
`UPDATE users SET energy = MIN(energy+30, 100),
social_battery = MIN(social_battery+20, 100)`. -/
def _recover_energy_all_users (db : Db) : Db :=
  { db with users := db.users.map (fun p => (p.1, recoverRow p.2)) }

-- ─────────────── invariants and state observations ──────────

/-- The numeric bounds the spec documents for every user row:
energy in [20,100], affection in [0,100], social battery in [20,100]. -/
def rowInBounds (s : UserState) : Prop :=
  20 ≤ s.energy ∧ s.energy ≤ 100 ∧ 0 ≤ s.affection ∧ s.affection ≤ 100 ∧
    20 ≤ s.social_battery ∧ s.social_battery ≤ 100

/-- All persisted user rows are within bounds. -/
def usersInBounds (db : Db) : Prop := ∀ p ∈ db.users, rowInBounds p.2

/-- Structural facts `AUTOINCREMENT` guarantees for the
`conversation_history` table: ids strictly increase in insertion order
and stay below the next id.  Holds for `Db.init` and is preserved by
every operation. -/
def ConvInv (db : Db) : Prop :=
  db.conversation_history.Pairwise (fun a b => a.id < b.id) ∧
    ∀ r ∈ db.conversation_history, r.id < db.next_conv_id

/-- The same `AUTOINCREMENT` facts for the `memories` table. -/
def MemInv (db : Db) : Prop :=
  db.memories.Pairwise (fun a b => a.id < b.id) ∧
    ∀ r ∈ db.memories, r.id < db.next_memory_id

/-- Number of memories of user `u` with importance strictly below the
cap threshold 5 (the subset `save_memory`'s prune step caps). -/
def lowMemCount (db : Db) (u : String) : Nat :=
  (db.memories.filter (fun r => decide (r.user = u ∧ r.importance < 5))).length

/-- Number of memories of user `u` with importance 3 or 5 (the subset
the spec calls "non-durable"). -/
def nonDurableCount (db : Db) (u : String) : Nat :=
  (db.memories.filter
    (fun r => decide (r.user = u ∧ (r.importance = 3 ∨ r.importance = 5)))).length

/-- The row(s) a `save_memory` call inserts before pruning: none for a
short text, otherwise the one truncated row with its importance. -/
def newMemRows (db : Db) (u text now : String) : List Memory :=
  if text.length ≤ 10 then []
  else [⟨db.next_memory_id, u, text.take 300, memoryImportance text, now⟩]

/-- At most one mood-history sample per (user, recorded day). -/
def oncePerDay (h : List MoodSample) : Prop :=
  h.Pairwise (fun a b => ¬(a.user = b.user ∧ a.recorded = b.recorded))

-- ═══════════════════════ LEMMAS ═════════════════════════════

section SortLemmas

variable {α : Type}

theorem insertSorted_eq_append (pre : α → α → Bool) (x : α) (l : List α)
    (h : ∀ y ∈ l, pre x y = false) : insertSorted pre x l = l ++ [x] := by
  induction l with
  | nil => rfl
  | cons y ys ih =>
    simp only [insertSorted, h y (List.mem_cons_self y ys), Bool.false_eq_true, if_false,
      List.cons_append, List.cons.injEq, true_and]
    exact ih (fun z hz => h z (List.mem_cons_of_mem y hz))

theorem sortBy_cons (pre : α → α → Bool) (a : α) (l : List α) :
    sortBy pre (a :: l) = insertSorted pre a (sortBy pre l) := rfl

theorem sortBy_asc_of_pairwise {f : α → Nat} (l : List α)
    (h : l.Pairwise (fun a b => f a < f b)) :
    sortBy (fun a b => decide (f a ≤ f b)) l = l := by
  induction l with
  | nil => rfl
  | cons a l ih =>
    rw [sortBy_cons, ih (List.pairwise_cons.mp h).2]
    cases l with
    | nil => rfl
    | cons b bs =>
      have hab : f a < f b :=
        (List.pairwise_cons.mp h).1 b (List.mem_cons_self b bs)
      simp [insertSorted, Nat.le_of_lt hab]

theorem sortBy_desc_of_pairwise {f : α → Nat} (l : List α)
    (h : l.Pairwise (fun a b => f a < f b)) :
    sortBy (fun a b => decide (f b ≤ f a)) l = l.reverse := by
  induction l with
  | nil => rfl
  | cons a l ih =>
    rw [sortBy_cons, ih (List.pairwise_cons.mp h).2, insertSorted_eq_append,
      List.reverse_cons]
    intro y hy
    have : f a < f y :=
      (List.pairwise_cons.mp h).1 y (List.mem_reverse.mp hy)
    simp only [decide_eq_false_iff_not]
    omega

theorem reverse_take_eq (l : List α) (k : Nat) :
    l.reverse.take k = (l.drop (l.length - k)).reverse := by
  by_cases h : l.length ≤ k
  · rw [Nat.sub_eq_zero_of_le h, List.drop_zero,
      List.take_of_length_le (by simpa using h)]
  · conv_lhs => rw [← List.take_append_drop (l.length - k) l, List.reverse_append]
    exact List.take_left' (by rw [List.length_reverse, List.length_drop]; omega)

/-- Core of the pruning analysis: among `t ++ d`, the elements whose key
occurs among `d`'s keys are exactly `d`, provided every key of `t` is
strictly below every key of `d`. -/
theorem filter_mem_map_drop (t d : List α) (f : α → Nat)
    (hcross : ∀ a ∈ t, ∀ b ∈ d, f a < f b) :
    (t ++ d).filter (fun r => decide (f r ∈ d.map f)) = d := by
  rw [List.filter_append]
  have h1 : t.filter (fun r => decide (f r ∈ d.map f)) = [] := by
    rw [List.filter_eq_nil_iff]
    intro a ha
    simp only [decide_eq_true_eq, List.mem_map, not_exists]
    intro b hcon
    obtain ⟨hb, hfb⟩ := hcon
    have := hcross a ha b hb
    omega
  have h2 : d.filter (fun r => decide (f r ∈ d.map f)) = d := by
    rw [List.filter_eq_self]
    intro a ha
    simp only [decide_eq_true_eq, List.mem_map]
    exact ⟨a, ha, rfl⟩
  rw [h1, h2, List.nil_append]

/-- Filtering a strictly-key-increasing list down to the members whose key
is among the `k` largest keeps exactly the last `k` elements. -/
theorem filter_mem_lastK {l : List α} {f : α → Nat} (k : Nat)
    (h : l.Pairwise (fun a b => f a < f b)) :
    l.filter (fun r => decide (f r ∈ (l.map f).reverse.take k)) =
      l.drop (l.length - k) := by
  have hset : (l.map f).reverse.take k = ((l.drop (l.length - k)).map f).reverse := by
    rw [reverse_take_eq, List.length_map, List.map_drop]
  rw [hset]
  have hcongr : l.filter (fun r => decide (f r ∈ ((l.drop (l.length - k)).map f).reverse))
      = l.filter (fun r => decide (f r ∈ (l.drop (l.length - k)).map f)) :=
    List.filter_congr (fun a _ => by simp [List.mem_reverse])
  rw [hcongr]
  have hcross : ∀ a ∈ l.take (l.length - k), ∀ b ∈ l.drop (l.length - k), f a < f b := by
    have h2 := h
    rw [← List.take_append_drop (l.length - k) l] at h2
    exact (List.pairwise_append.mp h2).2.2
  have hmain := filter_mem_map_drop (l.take (l.length - k)) (l.drop (l.length - k)) f hcross
  rwa [List.take_append_drop] at hmain

end SortLemmas

section AssocLemmas

theorem lookup_map_set {β : Type} [DecidableEq β] (l : List (String × β)) (u : String)
    (f : β → β) :
    (l.map (fun p => if p.1 = u then (p.1, f p.2) else p)).lookup u = (l.lookup u).map f := by
  induction l with
  | nil => rfl
  | cons p t ih =>
    obtain ⟨k, v⟩ := p
    by_cases hp : k = u
    · subst hp
      simp [List.lookup_cons]
    · have hne : (u == k) = false := by
        simp only [beq_eq_false_iff_ne, ne_eq]
        exact fun hc => hp hc.symm
      simp [hp, List.lookup_cons, hne, ih]

theorem lookup_append_of_none {β : Type} (l : List (String × β)) (u : String) (d : β)
    (h : l.lookup u = none) : (l ++ [(u, d)]).lookup u = some d := by
  rw [List.lookup_append, h]
  simp [List.lookup_cons]

end AssocLemmas

section EmotionLemmas

theorem matchMood_spec (cur text : String) :
    (matchMood text).getD cur = spec_mood_priority cur text := by
  unfold matchMood _MOOD_TRIGGERS spec_mood_priority
  cases h1 : keywordHit text worriedKws <;>
    cases h2 : keywordHit text sadKws <;>
      cases h3 : keywordHit text annoyedKws <;>
        cases h4 : keywordHit text excitedKws <;>
          cases h5 : keywordHit text happyKws <;>
            simp [List.find?, h1, h2, h3, h4, h5]

theorem emotion_update_mood (style text : String) (s : UserState) :
    (emotion_update style text s).mood = (matchMood text).getD s.mood := by
  cases h : matchMood text <;> simp [emotion_update, h]

theorem emotion_update_bounds (style text : String) (s : UserState) :
    20 ≤ (emotion_update style text s).energy ∧ (emotion_update style text s).energy ≤ 100 ∧
    0 ≤ (emotion_update style text s).affection ∧ (emotion_update style text s).affection ≤ 100 ∧
    20 ≤ (emotion_update style text s).social_battery ∧
      (emotion_update style text s).social_battery ≤ 100 := by
  simp only [emotion_update]
  refine ⟨?_, ?_, ?_, ?_, ?_, ?_⟩ <;> omega

theorem emotion_update_energy (style text : String) (s : UserState) :
    (emotion_update style text s).energy = max 20 (min 100 (s.energy - 1)) := by
  simp [emotion_update]

theorem emotion_update_markers (style text : String) (s : UserState) :
    (emotion_update style text s).last_morning = s.last_morning ∧
    (emotion_update style text s).last_night = s.last_night ∧
    (emotion_update style text s).last_random = s.last_random ∧
    (emotion_update style text s).last_active = s.last_active := by
  simp [emotion_update]

theorem users_ite_mood_history (c : Prop) [Decidable c] (x : Db) (mh : List MoodSample) :
    (if c then x else { x with mood_history := mh }).users = x.users := by
  split <;> rfl

/-- What `adjust_emotion` persists for user `u`: the `emotion_update`
result with `last_active` stamped. -/
theorem getUser_adjust (db : Db) (u text today now rand : String) :
    getUser (adjust_emotion db u text today now rand) u =
      { emotion_update (styleOf db u rand) text (getUser db u) with last_active := now } := by
  unfold adjust_emotion get_or_create_user get_attachment styleOf update_user_state getUser
  cases hu : db.users.lookup u with
  | some s =>
    cases ha : db.attachment.lookup u with
    | some st =>
      simp only [hu, ha, Option.getD_some]
      rw [users_ite_mood_history, lookup_map_set, hu]
      rfl
    | none =>
      simp only [hu, ha, Option.getD_some, Option.getD_none]
      rw [users_ite_mood_history, lookup_map_set, hu]
      rfl
  | none =>
    cases ha : db.attachment.lookup u with
    | some st =>
      simp only [hu, ha, Option.getD_some, Option.getD_none]
      rw [users_ite_mood_history, lookup_map_set, lookup_append_of_none _ _ _ hu]
      rfl
    | none =>
      simp only [hu, ha, Option.getD_some, Option.getD_none]
      rw [users_ite_mood_history, lookup_map_set, lookup_append_of_none _ _ _ hu]
      rfl

theorem mood_history_ite (c : Prop) [Decidable c] (x : Db) (mh : List MoodSample) :
    (if c then x else { x with mood_history := mh }).mood_history =
      if c then x.mood_history else mh := by
  split <;> rfl

/-- The mood-history table after one evaluation: unchanged when a sample
for `(u, today)` already exists, else extended by one sample holding the
post-update mood/energy/affection. -/
theorem mood_history_adjust (db : Db) (u text today now rand : String) :
    (adjust_emotion db u text today now rand).mood_history =
      if db.mood_history.any (fun r => decide (r.user = u ∧ r.recorded = today))
      then db.mood_history
      else db.mood_history ++
        [⟨u, today, (emotion_update (styleOf db u rand) text (getUser db u)).mood,
          (emotion_update (styleOf db u rand) text (getUser db u)).energy,
          (emotion_update (styleOf db u rand) text (getUser db u)).affection⟩] := by
  unfold adjust_emotion get_or_create_user get_attachment update_user_state styleOf getUser
  cases hu : db.users.lookup u <;> cases ha : db.attachment.lookup u <;>
    simp only [hu, ha, Option.getD_some, Option.getD_none]
  all_goals by_cases hq :
    (db.mood_history.any fun r => decide (r.user = u ∧ r.recorded = today)) = true
  all_goals try rw [if_pos hq, if_pos hq]
  all_goals try rw [if_neg hq, if_neg hq]

/-- The users table after one evaluation: the (possibly just-created)
rows with every row of `u` overwritten by the persisted state. -/
theorem users_adjust (db : Db) (u text today now rand : String) :
    (adjust_emotion db u text today now rand).users =
      ((get_or_create_user db u).1.users).map (fun p =>
        if p.1 = u
        then (p.1, persistEmotion (emotion_update (styleOf db u rand) text (getUser db u)) now p.2)
        else p) := by
  unfold adjust_emotion get_or_create_user get_attachment update_user_state styleOf getUser
  cases hu : db.users.lookup u <;> cases ha : db.attachment.lookup u <;>
    simp only [hu, ha, Option.getD_some, Option.getD_none]
  all_goals by_cases hq :
    (db.mood_history.any fun r => decide (r.user = u ∧ r.recorded = today)) = true
  all_goals try rw [if_pos hq]
  all_goals try rw [if_neg hq]

theorem usersInBounds_adjust (db : Db) (h : usersInBounds db) (u text today now rand : String) :
    usersInBounds (adjust_emotion db u text today now rand) := by
  intro p hp
  rw [users_adjust] at hp
  obtain ⟨q, hq, rfl⟩ := List.mem_map.mp hp
  by_cases hqu : q.1 = u
  · simp only [hqu, if_pos]
    simpa [rowInBounds, persistEmotion] using
      emotion_update_bounds (styleOf db u rand) text (getUser db u)
  · simp only [hqu, if_neg, if_false]
    have hmem : q ∈ (get_or_create_user db u).1.users := hq
    unfold get_or_create_user at hmem
    cases hu : db.users.lookup u with
    | some s => rw [hu] at hmem; exact h q hmem
    | none =>
      rw [hu] at hmem
      rcases List.mem_append.mp hmem with hl | hr
      · exact h q hl
      · have : q = (u, defaultUser) := by simpa using hr
        rw [this]
        refine ⟨by norm_num [defaultUser], by norm_num [defaultUser], by norm_num [defaultUser],
          by norm_num [defaultUser], by norm_num [defaultUser], by norm_num [defaultUser]⟩

theorem run_adjust_cons (db : Db) (e : AdjustEvent) (t : List AdjustEvent) :
    run_adjust db (e :: t) = run_adjust (adjust_emotion db e.user e.text e.today e.now e.rand) t := rfl

theorem oncePerDay_adjust (db : Db) (h : oncePerDay db.mood_history)
    (u text today now rand : String) :
    oncePerDay ((adjust_emotion db u text today now rand).mood_history) := by
  rw [oncePerDay, mood_history_adjust]
  by_cases hq : (db.mood_history.any fun r => decide (r.user = u ∧ r.recorded = today)) = true
  · rw [if_pos hq]; exact h
  · rw [if_neg hq, List.pairwise_append]
    refine ⟨h, List.pairwise_singleton _ _, ?_⟩
    intro a ha b hb
    rw [List.mem_singleton] at hb
    subst hb
    intro hcon
    exact hq (List.any_eq_true.mpr ⟨a, ha, by simp only [decide_eq_true_eq]; exact hcon⟩)

end EmotionLemmas

section MemoryLemmas

theorem sortBy_desc_mem_id (l : List Memory) (h : l.Pairwise (fun a b => a.id < b.id)) :
    sortBy (fun a b => decide (b.id ≤ a.id)) l = l.reverse :=
  sortBy_desc_of_pairwise (f := fun r => r.id) l h

theorem save_memory_short (db : Db) (u text now : String) (h10 : text.length ≤ 10) :
    save_memory db u text now = db := by
  rw [save_memory, if_pos h10]

theorem save_memory_memories (db : Db) (u text now : String) (h10 : ¬(text.length ≤ 10)) :
    (save_memory db u text now).memories
      = (memRows1 db u text now).filter
          (fun r => decide (¬(r.user = u ∧ r.importance < 5 ∧
            ¬(r.id ∈ memKeepIds db u text now)))) := by
  rw [save_memory, if_neg h10]

theorem save_memory_next (db : Db) (u text now : String) (h10 : ¬(text.length ≤ 10)) :
    (save_memory db u text now).next_memory_id = db.next_memory_id + 1 := by
  rw [save_memory, if_neg h10]

/-- Filter algebra for the prune's `DELETE`: among the surviving rows,
the low-importance rows of `u` are exactly those whose id is in `keep`. -/
theorem prune3_filter_low (rows1 : List Memory) (u : String) (keep : List Nat) :
    (rows1.filter (fun r => decide (¬(r.user = u ∧ r.importance < 5 ∧ ¬(r.id ∈ keep))))).filter
        (fun r => decide (r.user = u ∧ r.importance < 5))
      = (rows1.filter (fun r => decide (r.user = u ∧ r.importance < 5))).filter
          (fun r => decide (r.id ∈ keep)) := by
  rw [List.filter_filter, List.filter_filter]
  apply List.filter_congr
  intro a _
  by_cases h1 : a.user = u <;> by_cases h2 : a.importance < 5 <;>
    by_cases h3 : a.id ∈ keep <;> simp [h1, h2, h3]

/-- The prune's `DELETE` touches no row outside the low-importance subset
of `u`: any filter that excludes that subset is unaffected. -/
theorem prune3_filter_other (rows1 : List Memory) (u : String) (keep : List Nat)
    (p : Memory → Bool) (hg : ∀ r, p r = true → ¬(r.user = u ∧ r.importance < 5)) :
    (rows1.filter (fun r => decide (¬(r.user = u ∧ r.importance < 5 ∧ ¬(r.id ∈ keep))))).filter p
      = rows1.filter p := by
  rw [List.filter_filter]
  apply List.filter_congr
  intro a _
  by_cases hpa : p a = true
  · have hnl := hg a hpa
    have : (decide (¬(a.user = u ∧ a.importance < 5 ∧ ¬(a.id ∈ keep)))) = true := by
      simp only [decide_eq_true_eq]
      intro hcon
      exact hnl ⟨hcon.1, hcon.2.1⟩
    rw [hpa, this]
    rfl
  · have hpa' : p a = false := by
      cases hpe : p a
      · rfl
      · exact absurd hpe hpa
    rw [hpa']
    simp

theorem pairwise_memRows1 (db : Db) (u text now : String)
    (hp : db.memories.Pairwise (fun a b => a.id < b.id))
    (hb : ∀ r ∈ db.memories, r.id < db.next_memory_id) :
    (memRows1 db u text now).Pairwise (fun a b => a.id < b.id) := by
  rw [memRows1, List.pairwise_append]
  refine ⟨hp, List.pairwise_singleton _ _, ?_⟩
  intro a ha b hb'
  rw [List.mem_singleton] at hb'
  subst hb'
  exact hb a ha

theorem newMemRows_eq (db : Db) (u text now : String) (h10 : ¬(text.length ≤ 10)) :
    memRows1 db u text now = db.memories ++ newMemRows db u text now := by
  rw [memRows1, newMemRows, if_neg h10]

/-- The low-importance rows of `u` after a non-trivial `save_memory` are
the last `MEMORY_LOW_IMPORTANCE_CAP` of the pre-delete low rows. -/
theorem save_memory_low_rows (db : Db) (u text now : String)
    (h10 : ¬(text.length ≤ 10))
    (hp : db.memories.Pairwise (fun a b => a.id < b.id))
    (hb : ∀ r ∈ db.memories, r.id < db.next_memory_id) :
    (save_memory db u text now).memories.filter
        (fun r => decide (r.user = u ∧ r.importance < 5))
      = ((memRows1 db u text now).filter
            (fun r => decide (r.user = u ∧ r.importance < 5))).drop
          (((memRows1 db u text now).filter
              (fun r => decide (r.user = u ∧ r.importance < 5))).length
            - MEMORY_LOW_IMPORTANCE_CAP) := by
  have hlp : ((memRows1 db u text now).filter
      (fun r => decide (r.user = u ∧ r.importance < 5))).Pairwise
        (fun a b => a.id < b.id) :=
    List.Pairwise.sublist (List.filter_sublist _) (pairwise_memRows1 db u text now hp hb)
  rw [save_memory_memories db u text now h10, prune3_filter_low, memKeepIds,
    sortBy_desc_mem_id _ hlp, List.map_reverse]
  exact filter_mem_lastK (f := fun r : Memory => r.id) MEMORY_LOW_IMPORTANCE_CAP hlp

/-- The prune never deletes rows outside the low-importance subset of
`u`: any filter excluding that subset sees the same rows before and after
the call (up to the inserted row). -/
theorem save_memory_filter_other (db : Db) (u text now : String) (p : Memory → Bool)
    (hg : ∀ r, p r = true → ¬(r.user = u ∧ r.importance < 5)) :
    (save_memory db u text now).memories.filter p
      = (db.memories ++ newMemRows db u text now).filter p := by
  by_cases h10 : text.length ≤ 10
  · rw [save_memory_short db u text now h10, newMemRows, if_pos h10, List.append_nil]
  · rw [save_memory_memories db u text now h10, ← newMemRows_eq db u text now h10]
    exact prune3_filter_other _ u _ p hg

theorem save_memory_keeps (db : Db) (u text now : String) (r : Memory)
    (hr : r ∈ db.memories) (hnl : ¬(r.user = u ∧ r.importance < 5)) :
    r ∈ (save_memory db u text now).memories := by
  by_cases h10 : text.length ≤ 10
  · rw [save_memory_short db u text now h10]; exact hr
  · rw [save_memory_memories db u text now h10]
    refine List.mem_filter.mpr ⟨List.mem_append_left _ hr, ?_⟩
    simp only [decide_eq_true_eq]
    intro hcon
    exact hnl ⟨hcon.1, hcon.2.1⟩

theorem save_memory_inv (db : Db) (u text now : String) (h : MemInv db) :
    MemInv (save_memory db u text now) := by
  by_cases h10 : text.length ≤ 10
  · rw [save_memory_short db u text now h10]; exact h
  · obtain ⟨hp, hb⟩ := h
    constructor
    · rw [save_memory_memories db u text now h10]
      exact List.Pairwise.sublist (List.filter_sublist _) (pairwise_memRows1 db u text now hp hb)
    · intro r hr
      rw [save_memory_memories db u text now h10] at hr
      rw [save_memory_next db u text now h10]
      have hr1 := List.mem_of_mem_filter hr
      rw [memRows1] at hr1
      rcases List.mem_append.mp hr1 with hl | hsing
      · have := hb r hl; omega
      · rw [List.mem_singleton] at hsing
        subst hsing
        exact Nat.lt_succ_self db.next_memory_id

theorem lowMemCount_save (db : Db) (u text now : String) (h : MemInv db)
    (hcnt : ∀ v, lowMemCount db v ≤ MEMORY_LOW_IMPORTANCE_CAP) :
    ∀ v, lowMemCount (save_memory db u text now) v ≤ MEMORY_LOW_IMPORTANCE_CAP := by
  intro v
  by_cases h10 : text.length ≤ 10
  · rw [lowMemCount, save_memory_short db u text now h10]; exact hcnt v
  · by_cases hv : v = u
    · subst hv
      rw [lowMemCount, save_memory_low_rows db v text now h10 h.1 h.2, List.length_drop]
      omega
    · rw [lowMemCount, save_memory_filter_other db u text now _
        (fun r hr => by
          simp only [decide_eq_true_eq] at hr
          intro hcon
          exact hv (hr.1.symm.trans hcon.1)), List.filter_append]
      have hnew : ((newMemRows db u text now).filter
          (fun r => decide (r.user = v ∧ r.importance < 5))) = [] := by
        rw [newMemRows, if_neg h10]
        simp only [List.filter_eq_nil_iff]
        intro a ha
        rw [List.mem_singleton] at ha
        subst ha
        simp only [decide_eq_true_eq]
        intro hcon
        exact hv hcon.1.symm
      rw [hnew, List.append_nil]
      exact hcnt v

end MemoryLemmas


section ConversationLemmas

theorem sortBy_desc_turn_id (l : List Turn) (h : l.Pairwise (fun a b => a.id < b.id)) :
    sortBy (fun a b => decide (b.id ≤ a.id)) l = l.reverse :=
  sortBy_desc_of_pairwise (f := fun r => r.id) l h

theorem sortBy_asc_turn_id (l : List Turn) (h : l.Pairwise (fun a b => a.id < b.id)) :
    sortBy (fun a b => decide (a.id ≤ b.id)) l = l :=
  sortBy_asc_of_pairwise (f := fun r => r.id) l h

/-- Filter algebra for the trim's `DELETE`: among the surviving rows, the
rows of `u` are exactly those whose id is in `keep`. -/
theorem prune2_filter_user (rows1 : List Turn) (u : String) (keep : List Nat) :
    (rows1.filter (fun r => decide (¬(r.user = u ∧ ¬(r.id ∈ keep))))).filter
        (fun r => decide (r.user = u))
      = (rows1.filter (fun r => decide (r.user = u))).filter
          (fun r => decide (r.id ∈ keep)) := by
  rw [List.filter_filter, List.filter_filter]
  apply List.filter_congr
  intro a _
  by_cases h1 : a.user = u <;> by_cases h3 : a.id ∈ keep <;> simp [h1, h3]

theorem pairwise_convRows1 (db : Db) (u role content : String)
    (hp : db.conversation_history.Pairwise (fun a b => a.id < b.id))
    (hb : ∀ r ∈ db.conversation_history, r.id < db.next_conv_id) :
    (convRows1 db u role content).Pairwise (fun a b => a.id < b.id) := by
  rw [convRows1, List.pairwise_append]
  refine ⟨hp, List.pairwise_singleton _ _, ?_⟩
  intro a ha b hb'
  rw [List.mem_singleton] at hb'
  subst hb'
  exact hb a ha

theorem append_history_conv (db : Db) (u role content : String) :
    (append_history db u role content).conversation_history
      = (convRows1 db u role content).filter
          (fun r => decide (¬(r.user = u ∧ ¬(r.id ∈ convKeepIds db u role content)))) := rfl

theorem append_history_next (db : Db) (u role content : String) :
    (append_history db u role content).next_conv_id = db.next_conv_id + 1 := rfl

/-- Dropping all but the last `k` of `l ++ [x]` keeps `x` and all but the
last `k - 1` of `l`. -/
theorem drop_sub_append {α : Type} (l : List α) (x : α) (k : Nat) (hk : 1 ≤ k) :
    (l ++ [x]).drop ((l ++ [x]).length - k) = l.drop (l.length - (k - 1)) ++ [x] := by
  have hlen : (l ++ [x]).length = l.length + 1 := by
    rw [List.length_append, List.length_singleton]
  rw [hlen]
  have hle : l.length + 1 - k ≤ l.length := by omega
  rw [List.drop_append_of_le_length hle]
  congr 2
  omega

theorem convRows1_filter_user (db : Db) (u role content : String) :
    (convRows1 db u role content).filter (fun r => decide (r.user = u))
      = db.conversation_history.filter (fun r => decide (r.user = u))
          ++ [⟨db.next_conv_id, u, role, content.take 500⟩] := by
  rw [convRows1, List.filter_append]
  congr 1
  simp

/-- The rows of `u` after an `Append`: all but the oldest rows beyond the
window, with the just-inserted turn last. -/
theorem append_history_user_rows (db : Db) (u role content : String)
    (hp : db.conversation_history.Pairwise (fun a b => a.id < b.id))
    (hb : ∀ r ∈ db.conversation_history, r.id < db.next_conv_id) :
    (append_history db u role content).conversation_history.filter
        (fun r => decide (r.user = u))
      = (db.conversation_history.filter (fun r => decide (r.user = u))).drop
            ((db.conversation_history.filter (fun r => decide (r.user = u))).length
              - (MAX_HISTORY * 2 - 1))
          ++ [⟨db.next_conv_id, u, role, content.take 500⟩] := by
  have hlp : ((convRows1 db u role content).filter
      (fun r => decide (r.user = u))).Pairwise (fun a b => a.id < b.id) :=
    List.Pairwise.sublist (List.filter_sublist _) (pairwise_convRows1 db u role content hp hb)
  rw [append_history_conv, prune2_filter_user, convKeepIds,
    sortBy_desc_turn_id _ hlp, List.map_reverse,
    filter_mem_lastK (f := fun r : Turn => r.id) (MAX_HISTORY * 2) hlp,
    convRows1_filter_user, drop_sub_append _ _ _ (by norm_num [MAX_HISTORY])]

theorem append_history_inv (db : Db) (u role content : String) (h : ConvInv db) :
    ConvInv (append_history db u role content) := by
  obtain ⟨hp, hb⟩ := h
  constructor
  · rw [append_history_conv]
    exact List.Pairwise.sublist (List.filter_sublist _) (pairwise_convRows1 db u role content hp hb)
  · intro r hr
    rw [append_history_conv] at hr
    rw [append_history_next]
    have hr1 := List.mem_of_mem_filter hr
    rw [convRows1] at hr1
    rcases List.mem_append.mp hr1 with hl | hsing
    · have := hb r hl; omega
    · rw [List.mem_singleton] at hsing
      subst hsing
      exact Nat.lt_succ_self db.next_conv_id

theorem get_history_length (db : Db) (u : String) :
    (get_history db u).length ≤ MAX_HISTORY * 2 := by
  rw [get_history, List.length_map, get_history_rows]
  exact List.length_take_le _ _

theorem get_history_rows_eq (db : Db) (u : String)
    (hp : db.conversation_history.Pairwise (fun a b => a.id < b.id))
    (hlen : (db.conversation_history.filter (fun r => decide (r.user = u))).length
      ≤ MAX_HISTORY * 2) :
    get_history_rows db u
      = db.conversation_history.filter (fun r => decide (r.user = u)) := by
  rw [get_history_rows,
    sortBy_asc_turn_id _ (List.Pairwise.sublist (List.filter_sublist _) hp),
    List.take_of_length_le hlen]

theorem append_history_user_rows_len (db : Db) (u role content : String)
    (hp : db.conversation_history.Pairwise (fun a b => a.id < b.id))
    (hb : ∀ r ∈ db.conversation_history, r.id < db.next_conv_id) :
    ((append_history db u role content).conversation_history.filter
        (fun r => decide (r.user = u))).length ≤ MAX_HISTORY * 2 := by
  rw [append_history_user_rows db u role content hp hb, List.length_append,
    List.length_drop, List.length_singleton]
  norm_num [MAX_HISTORY]
  omega

/-- Frame transfer: an operation that leaves the conversation table and
its id counter alone preserves `ConvInv`. -/
theorem ConvInv_frame (db db2 : Db)
    (hc : db2.conversation_history = db.conversation_history)
    (hn : db2.next_conv_id = db.next_conv_id) (h : ConvInv db) : ConvInv db2 := by
  rw [ConvInv, hc, hn]
  exact h

theorem get_or_create_conv (db : Db) (u : String) :
    (get_or_create_user db u).1.conversation_history = db.conversation_history := by
  unfold get_or_create_user
  cases hu : db.users.lookup u <;> rfl

theorem get_or_create_next_conv (db : Db) (u : String) :
    (get_or_create_user db u).1.next_conv_id = db.next_conv_id := by
  unfold get_or_create_user
  cases hu : db.users.lookup u <;> rfl

theorem build_system_prompt_conv (db : Db) (u rand : String) :
    (build_system_prompt db u rand).1.conversation_history = db.conversation_history := by
  unfold build_system_prompt get_or_create_user get_attachment
  cases hu : db.users.lookup u <;> cases ha : db.attachment.lookup u <;>
    simp only [hu, ha]

theorem build_system_prompt_next_conv (db : Db) (u rand : String) :
    (build_system_prompt db u rand).1.next_conv_id = db.next_conv_id := by
  unfold build_system_prompt get_or_create_user get_attachment
  cases hu : db.users.lookup u <;> cases ha : db.attachment.lookup u <;>
    simp only [hu, ha]

end ConversationLemmas

section SchedulerLemmas

theorem tick_morning_marker (h m : Nat) (today : String) (mk : Markers)
    (gpt : String → Except Unit String) (d : String → Bool) :
    (scheduler_tick_user h m today mk gpt d).1.last_morning
      = if (_should_send h m 6 6 0 10 && (mk.last_morning != today) && d "morning") = true
        then today else mk.last_morning := by
  simp only [scheduler_tick_user, _SCHEDULE, List.foldl_cons, List.foldl_nil, getMarker,
    reduceIte]
  by_cases hx1 : (_should_send h m 6 6 0 10 && (mk.last_morning != today)) = true <;>
    by_cases hd1 : d "morning" = true <;>
      by_cases hx2 : (_should_send h m 14 14 0 10 && (mk.last_random != today)) = true <;>
        by_cases hd2 : d "day" = true <;>
          by_cases hx3 : (_should_send h m 23 23 50 59 && (mk.last_night != today)) = true <;>
            by_cases hd3 : d "night" = true <;>
              simp [hx1, hd1, hx2, hd2, hx3, hd3, setMarker]

theorem tick_day_marker (h m : Nat) (today : String) (mk : Markers)
    (gpt : String → Except Unit String) (d : String → Bool) :
    (scheduler_tick_user h m today mk gpt d).1.last_random
      = if (_should_send h m 14 14 0 10 && (mk.last_random != today) && d "day") = true
        then today else mk.last_random := by
  simp only [scheduler_tick_user, _SCHEDULE, List.foldl_cons, List.foldl_nil, getMarker,
    reduceIte]
  by_cases hx1 : (_should_send h m 6 6 0 10 && (mk.last_morning != today)) = true <;>
    by_cases hd1 : d "morning" = true <;>
      by_cases hx2 : (_should_send h m 14 14 0 10 && (mk.last_random != today)) = true <;>
        by_cases hd2 : d "day" = true <;>
          by_cases hx3 : (_should_send h m 23 23 50 59 && (mk.last_night != today)) = true <;>
            by_cases hd3 : d "night" = true <;>
              simp [hx1, hd1, hx2, hd2, hx3, hd3, setMarker]

theorem tick_night_marker (h m : Nat) (today : String) (mk : Markers)
    (gpt : String → Except Unit String) (d : String → Bool) :
    (scheduler_tick_user h m today mk gpt d).1.last_night
      = if (_should_send h m 23 23 50 59 && (mk.last_night != today) && d "night") = true
        then today else mk.last_night := by
  simp only [scheduler_tick_user, _SCHEDULE, List.foldl_cons, List.foldl_nil, getMarker,
    reduceIte]
  by_cases hx1 : (_should_send h m 6 6 0 10 && (mk.last_morning != today)) = true <;>
    by_cases hd1 : d "morning" = true <;>
      by_cases hx2 : (_should_send h m 14 14 0 10 && (mk.last_random != today)) = true <;>
        by_cases hd2 : d "day" = true <;>
          by_cases hx3 : (_should_send h m 23 23 50 59 && (mk.last_night != today)) = true <;>
            by_cases hd3 : d "night" = true <;>
              simp [hx1, hd1, hx2, hd2, hx3, hd3, setMarker]

theorem tick_sent (h m : Nat) (today : String) (mk : Markers)
    (gpt : String → Except Unit String) (d : String → Bool) :
    (scheduler_tick_user h m today mk gpt d).2
      = (if (_should_send h m 6 6 0 10 && (mk.last_morning != today) && d "morning") = true
          then [("morning", generate_proactive_message (gpt "morning") "morning")] else [])
        ++ (if (_should_send h m 14 14 0 10 && (mk.last_random != today) && d "day") = true
          then [("day", generate_proactive_message (gpt "day") "day")] else [])
        ++ (if (_should_send h m 23 23 50 59 && (mk.last_night != today) && d "night") = true
          then [("night", generate_proactive_message (gpt "night") "night")] else []) := by
  simp only [scheduler_tick_user, _SCHEDULE, List.foldl_cons, List.foldl_nil, getMarker,
    reduceIte]
  by_cases hx1 : (_should_send h m 6 6 0 10 && (mk.last_morning != today)) = true <;>
    by_cases hd1 : d "morning" = true <;>
      by_cases hx2 : (_should_send h m 14 14 0 10 && (mk.last_random != today)) = true <;>
        by_cases hd2 : d "day" = true <;>
          by_cases hx3 : (_should_send h m 23 23 50 59 && (mk.last_night != today)) = true <;>
            by_cases hd3 : d "night" = true <;>
              simp [hx1, hd1, hx2, hd2, hx3, hd3, setMarker]

theorem tick_no_resend_morning (h m : Nat) (today : String) (mk : Markers)
    (gpt : String → Except Unit String) (d : String → Bool)
    (hm : mk.last_morning = today) :
    ((scheduler_tick_user h m today mk gpt d).2.filter (fun p => p.1 == "morning")) = [] := by
  rw [tick_sent, hm]
  by_cases hx2 : (_should_send h m 14 14 0 10 && (mk.last_random != today) && d "day") = true <;>
    by_cases hx3 : (_should_send h m 23 23 50 59 && (mk.last_night != today) && d "night") = true <;>
      simp [hx2, hx3]

theorem tick_no_resend_day (h m : Nat) (today : String) (mk : Markers)
    (gpt : String → Except Unit String) (d : String → Bool)
    (hm : mk.last_random = today) :
    ((scheduler_tick_user h m today mk gpt d).2.filter (fun p => p.1 == "day")) = [] := by
  rw [tick_sent, hm]
  by_cases hx1 : (_should_send h m 6 6 0 10 && (mk.last_morning != today) && d "morning") = true <;>
    by_cases hx3 : (_should_send h m 23 23 50 59 && (mk.last_night != today) && d "night") = true <;>
      simp [hx1, hx3]

theorem tick_no_resend_night (h m : Nat) (today : String) (mk : Markers)
    (gpt : String → Except Unit String) (d : String → Bool)
    (hm : mk.last_night = today) :
    ((scheduler_tick_user h m today mk gpt d).2.filter (fun p => p.1 == "night")) = [] := by
  rw [tick_sent, hm]
  by_cases hx1 : (_should_send h m 6 6 0 10 && (mk.last_morning != today) && d "morning") = true <;>
    by_cases hx2 : (_should_send h m 14 14 0 10 && (mk.last_random != today) && d "day") = true <;>
      simp [hx1, hx2]

end SchedulerLemmas

-- ═══════════════════════ CLAIM THEOREMS ═════════════════════

/-- C1: Mood resolution is first-match-wins over the fixed priority order
worried > sad > annoyed > excited > happy: for every inbound text,
`adjust_emotion` persists the first category in that order with a
substring-matching keyword, retaining the current mood when none match;
in particular a text matching both a worried and a happy keyword resolves
to worried. -/
theorem mood_resolution_first_match_priority (db : Db) (u text today now rand : String) :
    (getUser (adjust_emotion db u text today now rand) u).mood
        = spec_mood_priority (getUser db u).mood text
    ∧ (keywordHit text worriedKws = true → keywordHit text happyKws = true →
        (getUser (adjust_emotion db u text today now rand) u).mood = "worried") := by
  have h1 : (getUser (adjust_emotion db u text today now rand) u).mood
      = spec_mood_priority (getUser db u).mood text := by
    rw [getUser_adjust]
    show (emotion_update (styleOf db u rand) text (getUser db u)).mood = _
    rw [emotion_update_mood, matchMood_spec]
  refine ⟨h1, fun hw _ => ?_⟩
  rw [h1, spec_mood_priority, if_pos hw]

/-- Witness for C1 at a concrete text containing both a worried keyword
("ป่วย") and a happy keyword ("รัก"). -/
theorem mood_resolution_first_match_priority_witness :
    (getUser (adjust_emotion Db.init "u" "ป่วยแต่รัก" "d" "n" "secure") "u").mood = "worried" :=
  (mood_resolution_first_match_priority Db.init "u" "ป่วยแต่รัก" "d" "n" "secure").2
    (by decide) (by decide)

/-- C2: starting from any store whose user rows are within the documented
bounds (energy [20,100], affection [0,100], social battery [20,100]),
every sequence of Emotion Engine evaluations keeps every persisted row
within those bounds. -/
theorem emotion_engine_bounds_invariant (db : Db) (evts : List AdjustEvent)
    (h : usersInBounds db) : usersInBounds (run_adjust db evts) := by
  induction evts generalizing db with
  | nil => exact h
  | cons e t ih =>
    rw [run_adjust_cons]
    exact ih _ (usersInBounds_adjust db h e.user e.text e.today e.now e.rand)

/-- Witness for C2: a concrete two-message run from the fresh store. -/
theorem emotion_engine_bounds_invariant_witness :
    usersInBounds (run_adjust Db.init
      [⟨"u", "เหนื่อยมาก", "d1", "n1", "avoidant"⟩, ⟨"u", "รัก", "d2", "n2", "avoidant"⟩]) :=
  emotion_engine_bounds_invariant Db.init _ (by intro p hp; simp [Db.init] at hp)

/-- C10: for a stored energy in [20,100], one Emotion Engine evaluation
persists exactly `max 20 (energy - 1)` — never an increase — while the
scheduler's recovery pass never decreases a (≤ 100) user's energy. -/
theorem reactive_energy_never_increases (db : Db) (u text today now rand : String)
    (h1 : 20 ≤ (getUser db u).energy) (h2 : (getUser db u).energy ≤ 100) :
    (getUser (adjust_emotion db u text today now rand) u).energy
        = max 20 ((getUser db u).energy - 1)
    ∧ (getUser (adjust_emotion db u text today now rand) u).energy ≤ (getUser db u).energy
    ∧ ∀ p ∈ db.users, p.2.energy ≤ 100 →
        ∃ q ∈ (_recover_energy_all_users db).users, q.1 = p.1 ∧ p.2.energy ≤ q.2.energy := by
  have he : (getUser (adjust_emotion db u text today now rand) u).energy
      = max 20 (min 100 ((getUser db u).energy - 1)) := by
    rw [getUser_adjust]
    show (emotion_update (styleOf db u rand) text (getUser db u)).energy = _
    exact emotion_update_energy _ _ _
  refine ⟨by rw [he]; omega, by rw [he]; omega, ?_⟩
  intro p hp hle
  obtain ⟨k, v⟩ := p
  refine ⟨(k, recoverRow v), ?_, rfl, ?_⟩
  · exact List.mem_map_of_mem _ hp
  · replace hle : v.energy ≤ 100 := hle
    simp only [recoverRow]
    omega

/-- Witness for C10 on the default-created user (energy 75). -/
theorem reactive_energy_never_increases_witness :
    (getUser (adjust_emotion Db.init "u" "hello" "d" "n" "secure") "u").energy
      = max 20 ((getUser Db.init "u").energy - 1) :=
  (reactive_energy_never_increases Db.init "u" "hello" "d" "n" "secure"
    (by decide) (by decide)).1

/-- C8: at most one mood-history sample per (user, day) after any
sequence of evaluations, and one evaluation inserts a sample exactly when
none exists for `(u, today)`, recording the post-update (clamped) mood,
energy and affection. -/
theorem mood_history_once_per_day (db : Db) (evts : List AdjustEvent)
    (h : oncePerDay db.mood_history) :
    oncePerDay ((run_adjust db evts).mood_history)
    ∧ ∀ u text today now rand,
        (adjust_emotion db u text today now rand).mood_history =
          if db.mood_history.any (fun r => decide (r.user = u ∧ r.recorded = today))
          then db.mood_history
          else db.mood_history ++
            [⟨u, today, (emotion_update (styleOf db u rand) text (getUser db u)).mood,
              (emotion_update (styleOf db u rand) text (getUser db u)).energy,
              (emotion_update (styleOf db u rand) text (getUser db u)).affection⟩] := by
  constructor
  · induction evts generalizing db with
    | nil => exact h
    | cons e t ih =>
      rw [run_adjust_cons]
      exact ih _ (oncePerDay_adjust db h e.user e.text e.today e.now e.rand)
  · intro u text today now rand
    exact mood_history_adjust db u text today now rand

/-- Witness for C8: two same-day evaluations for the same user. -/
theorem mood_history_once_per_day_witness :
    oncePerDay ((run_adjust Db.init
      [⟨"u", "รัก", "d1", "n1", "secure"⟩, ⟨"u", "เศร้า", "d1", "n2", "secure"⟩]).mood_history) :=
  (mood_history_once_per_day Db.init _ List.Pairwise.nil).1

theorem run_saves_cons (db : Db) (e : SaveEvent) (t : List SaveEvent) :
    run_saves db (e :: t) = run_saves (save_memory db e.user e.text e.now) t := rfl

/-- C4: for every user, after any number of `Consider` calls from a store
satisfying the id facts and the cap, the count of that user's memories
with importance < 5 never exceeds `MEMORY_LOW_IMPORTANCE_CAP` (50), and
no memory with importance ≥ 9 is ever deleted by the pruning step. -/
theorem memory_cap_and_durables_preserved (db : Db) (evts : List SaveEvent)
    (hinv : MemInv db) (hcnt : ∀ v, lowMemCount db v ≤ MEMORY_LOW_IMPORTANCE_CAP) :
    (∀ v, lowMemCount (run_saves db evts) v ≤ MEMORY_LOW_IMPORTANCE_CAP)
    ∧ (∀ r ∈ db.memories, 9 ≤ r.importance → r ∈ (run_saves db evts).memories) := by
  induction evts generalizing db with
  | nil => exact ⟨hcnt, fun r hr _ => hr⟩
  | cons e t ih =>
    have hstep := lowMemCount_save db e.user e.text e.now hinv hcnt
    have hinv' := save_memory_inv db e.user e.text e.now hinv
    have hrec := ih (save_memory db e.user e.text e.now) hinv' hstep
    rw [run_saves_cons]
    refine ⟨hrec.1, fun r hr h9 => hrec.2 r ?_ h9⟩
    exact save_memory_keeps db e.user e.text e.now r hr (fun hcon => by
      have := hcon.2
      omega)

/-- Witness for C4: one long `Consider` call on the fresh store. -/
theorem memory_cap_and_durables_preserved_witness :
    lowMemCount (run_saves Db.init
        [⟨"u", String.mk (List.replicate 61 'a'), "t"⟩]) "u" ≤ MEMORY_LOW_IMPORTANCE_CAP :=
  (memory_cap_and_durables_preserved Db.init _
    ⟨List.Pairwise.nil, fun r hr => absurd hr (List.not_mem_nil r)⟩
    (fun _ => by rw [lowMemCount]; simp [Db.init])).1 "u"

set_option maxRecDepth 100000 in
/-- C3 counterexample: 51 `Consider` calls with 61-character
keyword-free texts (all assigned importance 5) leave 51 memories of
importance 3 or 5 for the user — the "non-durable" count of the claim
exceeds the cap of 50, because the prune only caps `importance < 5`. -/
theorem memory_nondurable_cap_counterexample :
    MEMORY_LOW_IMPORTANCE_CAP < nonDurableCount
      (run_saves Db.init
        (List.replicate 51 ⟨"u", String.mk (List.replicate 61 'a'), "t"⟩)) "u" := by
  decide

/-- C3 amended: the cap applies to memories with importance strictly
below 5 (in practice the importance-3 rows): their count never exceeds
50 after any number of `Consider` calls, and a call's eviction keeps a
suffix of the pre-delete low-importance subsequence (so only the oldest
low-importance rows are removed) while every row outside that subset
survives unchanged.  Importance-5 rows are exempt from the cap. -/
theorem memory_low_importance_cap (db : Db) (evts : List SaveEvent)
    (hinv : MemInv db) (hcnt : ∀ v, lowMemCount db v ≤ MEMORY_LOW_IMPORTANCE_CAP) :
    (∀ v, lowMemCount (run_saves db evts) v ≤ MEMORY_LOW_IMPORTANCE_CAP)
    ∧ ∀ u text now, (∃ k,
        (save_memory db u text now).memories.filter
            (fun r => decide (r.user = u ∧ r.importance < 5))
          = ((db.memories ++ newMemRows db u text now).filter
              (fun r => decide (r.user = u ∧ r.importance < 5))).drop k)
      ∧ (save_memory db u text now).memories.filter
            (fun r => decide (¬(r.user = u ∧ r.importance < 5)))
          = (db.memories ++ newMemRows db u text now).filter
              (fun r => decide (¬(r.user = u ∧ r.importance < 5))) := by
  constructor
  · induction evts generalizing db with
    | nil => exact hcnt
    | cons e t ih =>
      rw [run_saves_cons]
      exact ih (save_memory db e.user e.text e.now)
        (save_memory_inv db e.user e.text e.now hinv)
        (lowMemCount_save db e.user e.text e.now hinv hcnt)
  · intro u text now
    constructor
    · by_cases h10 : text.length ≤ 10
      · refine ⟨0, ?_⟩
        rw [save_memory_short db u text now h10, newMemRows, if_pos h10,
          List.append_nil, List.drop_zero]
      · refine ⟨((memRows1 db u text now).filter
            (fun r => decide (r.user = u ∧ r.importance < 5))).length
          - MEMORY_LOW_IMPORTANCE_CAP, ?_⟩
        rw [← newMemRows_eq db u text now h10]
        exact save_memory_low_rows db u text now h10 hinv.1 hinv.2
    · exact save_memory_filter_other db u text now _
        (fun r hr => by simp only [decide_eq_true_eq] at hr; exact hr)


/-- C5: a Conversation Window read immediately after an append includes
the just-appended row as its final (most recent) element; the returned
sequence never exceeds `2 * MAX_HISTORY` rows for any store contents; and
the returned rows are in chronological (id-ascending, oldest-first)
order. -/
theorem conversation_read_after_append (db : Db) (u role content : String) (h : ConvInv db) :
    ((role, content.take 500) ∈ get_history (append_history db u role content) u
      ∧ (get_history (append_history db u role content) u).getLast?
          = some (role, content.take 500))
    ∧ (∀ (db2 : Db) (v : String), (get_history db2 v).length ≤ MAX_HISTORY * 2)
    ∧ (get_history_rows (append_history db u role content) u).Pairwise
        (fun a b => a.id < b.id) := by
  obtain ⟨hp, hb⟩ := h
  have hinv2 := append_history_inv db u role content ⟨hp, hb⟩
  have hur := append_history_user_rows db u role content hp hb
  have hlen := append_history_user_rows_len db u role content hp hb
  have hrows : get_history_rows (append_history db u role content) u
      = (append_history db u role content).conversation_history.filter
          (fun r => decide (r.user = u)) :=
    get_history_rows_eq _ u hinv2.1 hlen
  have hmap : get_history (append_history db u role content) u
      = ((db.conversation_history.filter (fun r => decide (r.user = u))).drop
            ((db.conversation_history.filter (fun r => decide (r.user = u))).length
              - (MAX_HISTORY * 2 - 1))).map (fun r => (r.role, r.content))
          ++ [(role, content.take 500)] := by
    rw [get_history, hrows, hur, List.map_append]
    simp only [List.map_cons, List.map_nil]
  refine ⟨⟨?_, ?_⟩, ?_, ?_⟩
  · rw [hmap]
    exact List.mem_append_right _ (List.mem_singleton.mpr rfl)
  · rw [hmap, List.getLast?_concat]
  · intro db2 v
    exact get_history_length db2 v
  · rw [hrows]
    exact List.Pairwise.sublist (List.filter_sublist _) hinv2.1

/-- Witness for C5 on the fresh store. -/
theorem conversation_read_after_append_witness :
    ("user", String.take "hello" 500)
        ∈ get_history (append_history Db.init "u" "user" "hello") "u"
      ∧ (get_history (append_history Db.init "u" "user" "hello") "u").getLast?
          = some ("user", String.take "hello" 500) :=
  (conversation_read_after_append Db.init "u" "user" "hello"
    ⟨List.Pairwise.nil, fun r hr => absurd hr (List.not_mem_nil r)⟩).1

set_option maxRecDepth 2000 in
/-- C6: when the completion collaborator raises, `generate_reply` returns
the fixed apology fallback instead of propagating, and the conversation
window ends with the inbound user turn (appended before the completion
call) followed by the fallback as the assistant turn. -/
theorem generation_failure_fallback (db : Db) (u text rand : String) (h : ConvInv db) :
    (generate_reply db u text (Except.error ()) rand).2 = FALLBACK_REPLY
    ∧ ∃ pre, get_history (generate_reply db u text (Except.error ()) rand).1 u
        = pre ++ [("user", text.take 500), ("assistant", FALLBACK_REPLY)] := by
  have h0 : ConvInv (get_or_create_user db u).1 :=
    ConvInv_frame db _ (get_or_create_conv db u) (get_or_create_next_conv db u) h
  have h1 : ConvInv (append_history (get_or_create_user db u).1 u "user" text) :=
    append_history_inv _ u "user" text h0
  have hpc := build_system_prompt_conv
    (append_history (get_or_create_user db u).1 u "user" text) u rand
  have hpn := build_system_prompt_next_conv
    (append_history (get_or_create_user db u).1 u "user" text) u rand
  have hp2 : ConvInv (build_system_prompt
      (append_history (get_or_create_user db u).1 u "user" text) u rand).1 :=
    ConvInv_frame _ _ hpc hpn h1
  have hfinv := append_history_inv (build_system_prompt
      (append_history (get_or_create_user db u).1 u "user" text) u rand).1
    u "assistant" FALLBACK_REPLY hp2
  have hfur := append_history_user_rows (build_system_prompt
      (append_history (get_or_create_user db u).1 u "user" text) u rand).1
    u "assistant" FALLBACK_REPLY hp2.1 hp2.2
  have hflen := append_history_user_rows_len (build_system_prompt
      (append_history (get_or_create_user db u).1 u "user" text) u rand).1
    u "assistant" FALLBACK_REPLY hp2.1 hp2.2
  have hfrows := get_history_rows_eq (append_history (build_system_prompt
      (append_history (get_or_create_user db u).1 u "user" text) u rand).1
    u "assistant" FALLBACK_REPLY) u hfinv.1 hflen
  have h1ur := append_history_user_rows (get_or_create_user db u).1 u "user" text h0.1 h0.2
  refine ⟨rfl, ?_⟩
  have hgh : get_history (generate_reply db u text (Except.error ()) rand).1 u
      = get_history (append_history (build_system_prompt
          (append_history (get_or_create_user db u).1 u "user" text) u rand).1
        u "assistant" FALLBACK_REPLY) u := rfl
  have hfb : FALLBACK_REPLY.take 500 = FALLBACK_REPLY := by
    rw [String.take_eq,
      List.take_of_length_le (by decide)]
  rw [hgh, get_history, hfrows, hfur, hpc, h1ur,
    drop_sub_append _ _ (MAX_HISTORY * 2 - 1) (by norm_num [MAX_HISTORY]),
    List.map_append, List.map_append, List.append_assoc]
  simp only [List.map_cons, List.map_nil, List.singleton_append, hfb]
  exact ⟨_, rfl⟩


/-- Witness for C6 on the fresh store. -/
theorem generation_failure_fallback_witness :
    (generate_reply Db.init "u" "สวัสดี" (Except.error ()) "secure").2 = FALLBACK_REPLY :=
  (generation_failure_fallback Db.init "u" "สวัสดี" "secure"
    ⟨List.Pairwise.nil, fun r hr => absurd hr (List.not_mem_nil r)⟩).1

set_option maxRecDepth 4000 in
/-- C9 counterexample: on a fresh store, `build_system_prompt` inserts
the default user row and a random attachment row (the store changes),
and its instruction text depends on the `random.choice` outcome. -/
theorem compose_pure_projection_counterexample :
    (build_system_prompt Db.init "u" "secure").1 ≠ Db.init
    ∧ (build_system_prompt Db.init "u" "secure").2
        ≠ (build_system_prompt Db.init "u" "avoidant").2 := by
  decide

/-- C9 amended: for every user id whose user row and attachment row
already exist in the store, `build_system_prompt` leaves the store
entirely unchanged and returns an instruction text determined by the
store contents alone — independent of the randomness oracle. -/
theorem compose_pure_projection (db : Db) (u : String) (s : UserState) (st : String)
    (rand1 rand2 : String) (h1 : db.users.lookup u = some s)
    (h2 : db.attachment.lookup u = some st) :
    (build_system_prompt db u rand1).1 = db
    ∧ (build_system_prompt db u rand1).2 = (build_system_prompt db u rand2).2 := by
  unfold build_system_prompt get_or_create_user get_attachment
  simp only [h1, h2]
  exact ⟨trivial, trivial⟩

/-- Witness for the amended C9 on a store holding the two rows. -/
theorem compose_pure_projection_witness :
    (build_system_prompt
        { Db.init with users := [("u", defaultUser)], attachment := [("u", "anxious")] }
        "u" "secure").1
      = { Db.init with users := [("u", defaultUser)], attachment := [("u", "anxious")] } :=
  (compose_pure_projection
    { Db.init with users := [("u", defaultUser)], attachment := [("u", "anxious")] }
    "u" defaultUser "anxious" "secure" "avoidant" (by decide) (by decide)).1


/-- C7: per scheduler tick, user and moment: a message is delivered for a
moment exactly when the tick's hour/minute lies in that moment's window,
the user's snapshot marker differs from today, and the push succeeds; the
marker field becomes `today` exactly in that case (a delivery failure
leaves it unchanged for retry on the next tick); and once a moment's
marker equals today, a tick delivers nothing further for that moment that
day. -/
theorem scheduler_tick_once_per_day (h m : Nat) (today : String) (mk : Markers)
    (gpt : String → Except Unit String) (d : String → Bool) :
    ((scheduler_tick_user h m today mk gpt d).1.last_morning
        = if (_should_send h m 6 6 0 10 && (mk.last_morning != today) && d "morning") = true
          then today else mk.last_morning)
    ∧ ((scheduler_tick_user h m today mk gpt d).1.last_random
        = if (_should_send h m 14 14 0 10 && (mk.last_random != today) && d "day") = true
          then today else mk.last_random)
    ∧ ((scheduler_tick_user h m today mk gpt d).1.last_night
        = if (_should_send h m 23 23 50 59 && (mk.last_night != today) && d "night") = true
          then today else mk.last_night)
    ∧ ((scheduler_tick_user h m today mk gpt d).2
        = (if (_should_send h m 6 6 0 10 && (mk.last_morning != today) && d "morning") = true
            then [("morning", generate_proactive_message (gpt "morning") "morning")] else [])
          ++ (if (_should_send h m 14 14 0 10 && (mk.last_random != today) && d "day") = true
            then [("day", generate_proactive_message (gpt "day") "day")] else [])
          ++ (if (_should_send h m 23 23 50 59 && (mk.last_night != today) && d "night") = true
            then [("night", generate_proactive_message (gpt "night") "night")] else []))
    ∧ (∀ (h2 m2 : Nat) (mk2 : Markers) (gpt2 : String → Except Unit String)
          (d2 : String → Bool),
        ((scheduler_tick_user h2 m2 today { mk2 with last_morning := today } gpt2 d2).2.filter
            (fun p => p.1 == "morning")) = []
        ∧ ((scheduler_tick_user h2 m2 today { mk2 with last_random := today } gpt2 d2).2.filter
            (fun p => p.1 == "day")) = []
        ∧ ((scheduler_tick_user h2 m2 today { mk2 with last_night := today } gpt2 d2).2.filter
            (fun p => p.1 == "night")) = []) :=
  ⟨tick_morning_marker h m today mk gpt d,
   tick_day_marker h m today mk gpt d,
   tick_night_marker h m today mk gpt d,
   tick_sent h m today mk gpt d,
   fun h2 m2 mk2 gpt2 d2 =>
     ⟨tick_no_resend_morning h2 m2 today _ gpt2 d2 rfl,
      tick_no_resend_day h2 m2 today _ gpt2 d2 rfl,
      tick_no_resend_night h2 m2 today _ gpt2 d2 rfl⟩⟩

/-- Witness for the amended C3: one short (discarded) `Consider` call. -/
theorem memory_low_importance_cap_witness :
    lowMemCount (run_saves Db.init [⟨"u", "ok", "t"⟩]) "u" ≤ MEMORY_LOW_IMPORTANCE_CAP :=
  (memory_low_importance_cap Db.init _
    ⟨List.Pairwise.nil, fun r hr => absurd hr (List.not_mem_nil r)⟩
    (fun _ => by rw [lowMemCount]; simp [Db.init])).1 "u"

end MonBot
